import Mathlib

/-!
Verification of `src/drf_csv_renderer/views.py` (drf-table-renderer).

Shallow embedding conventions:
* A Django `QuerySet` is modelled as the ordered list of records it denotes
  (`List ρ`); slicing `queryset[:n]` is `List.take n` (per the Query
  invariant: slicing restricts to the first n records without materializing).
* The backing store (Django ORM) is an external collaborator: `queryset.iterator()`
  (no chunk size) and `queryset.iterator(chunk_size=n)` are modelled as functions
  from the queryset's record list to `Except PyErr (List ρ)` — either the ordered
  records the cursor yields, or a raised exception.
* Python exceptions are modelled by `PyErr`: a flag saying whether the exception
  is a `ValueError` (the only class caught by `_get_serialized_stream`) plus its
  message string (`str(e)`).
* The DRF serializer collaborator is a capability with a per-record form
  (`serializer_class(obj, context=...).data`, used in streaming) and a batch form
  (`get_serializer(queryset, many=True).data`, used non-streaming).
* Fallible code returns `Except PyErr _`; `.error e` models an exception
  propagating out of the call.
-/

namespace DrfCsv

/-- A Python exception as observed by `_get_serialized_stream`'s handler:
whether it is a `ValueError`, and its message (`str(e)`). -/
structure PyErr where
  isValueError : Bool
  msg : String
deriving DecidableEq

/-- The substring tested by `_get_serialized_stream`:
`"chunk_size must be provided" in str(e)`. -/
def needsChunkMsg : String := "chunk_size must be provided"

/-- Containment of `pat` as a contiguous run inside `hay`, on character lists. -/
def listContains (pat : List Char) : List Char → Bool
  | [] => pat.isPrefixOf []
  | c :: rest => pat.isPrefixOf (c :: rest) || listContains pat rest

/-- Python's `pat in hay` substring test on strings. -/
def strContains (hay pat : String) : Bool :=
  listContains pat.toList hay.toList

/-- The exception classification in `_get_serialized_stream`'s handler:
`except ValueError as e` together with `"chunk_size must be provided" in str(e)`. -/
def isNeedsChunk (e : PyErr) : Bool :=
  e.isValueError && strContains e.msg needsChunkMsg

/-- The backing store (Django ORM) behaviour for a queryset, an external
collaborator of `views.py`: `cursorDefault qs` is the outcome of
`queryset.iterator()` with no chunk size, and `cursorChunked qs n` the outcome
of `queryset.iterator(chunk_size=n)`, each yielding the ordered records of the
cursor or raising. -/
structure Store (ρ : Type) where
  cursorDefault : List ρ → Except PyErr (List ρ)
  cursorChunked : List ρ → Nat → Except PyErr (List ρ)

/-- The store contract `query.fetchAll()`: full materialization of the
queryset's records, in store order (identity in the list model). -/
def fetchAll (qs : List ρ) : List ρ := qs

/-- The DRF serializer collaborator: `one r` is `serializer_class(r, context=...).data`
(per-record, streaming path); `many xs` is `get_serializer(xs, many=True).data`
(one batch call on the whole materialized sequence, non-streaming path). -/
structure SerializerCap (ρ Row : Type) where
  one : ρ → Row
  many : List ρ → List Row

/-- DRF's default `ListSerializer` behaviour: the batch serializer maps the
per-record serializer over the list (no list-wide side effects). -/
def PointwiseSer (ser : Option (SerializerCap ρ Row)) : Prop :=
  ∀ cap, ser = some cap → ∀ xs, cap.many xs = xs.map cap.one

/-- View configuration and collaborator context for `get_csv_data`:
`csvStreaming` is `self.csv_streaming`; `rowsCount` is `self.get_csv_rows_count()`;
`serializer` is `some cap` when `hasattr(self, "serializer_class") and
self.serializer_class` holds (with `cap` the serializer's behaviour), `none`
otherwise; `values` is the per-record raw field mapping of `queryset.values()`;
`paginate` is `self.paginate_queryset` (`none` = Python `None`, meaning no
pagination); `csvStreamingChunkSize` is the optional `csv_streaming_chunk_size`
attribute read by `getattr(self, 'csv_streaming_chunk_size', 1000)`. -/
structure CsvConfig (ρ Row : Type) where
  csvStreaming : Bool
  rowsCount : Option Nat
  serializer : Option (SerializerCap ρ Row)
  values : ρ → Row
  paginate : List ρ → Option (List ρ)
  csvStreamingChunkSize : Option Nat

/-- The chunk size used by the fallback:
`getattr(self, 'csv_streaming_chunk_size', 1000)`. -/
def effectiveChunkSize (cfg : Option Nat) : Nat := cfg.getD 1000

/-- The limit application `queryset = queryset[:rows_count]` guarded by
`if rows_count is not None`, shared by both branches of `get_csv_data`. -/
def applyLimit (rowsCount : Option Nat) (qs : List ρ) : List ρ :=
  match rowsCount with
  | some n => qs.take n
  | none => qs

/-- The `try/except ValueError` block of `_get_serialized_stream`: attempt
`queryset.iterator()`; on a `ValueError` whose message contains
`"chunk_size must be provided"`, retry once with
`queryset.iterator(chunk_size=chunk)`; re-raise any other exception. -/
def resolveIterator (st : Store ρ) (chunk : Nat) (qs : List ρ) :
    Except PyErr (List ρ) :=
  match st.cursorDefault qs with
  | .ok it => .ok it
  | .error e =>
    if isNeedsChunk e then st.cursorChunked qs chunk
    else .error e

/-- Extensional content of `_get_serialized_stream(queryset)`: the records the
resolved iterator yields, each serialized by
`serializer_class(obj, context=self.get_serializer_context()).data`, or the
exception the iterator resolution raises. (Timing — the fact that this is a
generator whose body runs only when pulled — is modelled separately by the
operational model below.) -/
def getSerializedStream (st : Store ρ) (chunk : Nat) (serialize : ρ → Row)
    (qs : List ρ) : Except PyErr (List Row) :=
  (resolveIterator st chunk qs).map (List.map serialize)

/-- Extensional content of `CSVListView.get_csv_data`, mirroring the source:
if `csv_streaming`, apply the limit and return the serialized stream (when a
serializer is configured) or the raw `values()` generator; otherwise apply the
limit, then `paginate_queryset`, then either the batch serializer or
`list(queryset.values())`. -/
def getCsvData (cfg : CsvConfig ρ Row) (st : Store ρ) (queryset : List ρ) :
    Except PyErr (List Row) :=
  if cfg.csvStreaming then
    let qs := applyLimit cfg.rowsCount queryset
    match cfg.serializer with
    | some cap =>
        getSerializedStream st (effectiveChunkSize cfg.csvStreamingChunkSize)
          cap.one qs
    | none => .ok (qs.map cfg.values)
  else
    let qs := applyLimit cfg.rowsCount queryset
    let qs2 := (cfg.paginate qs).getD qs
    match cfg.serializer with
    | some cap => .ok (cap.many qs2)
    | none => .ok (qs2.map cfg.values)

/-! ### Operational (pull-based) model of the streaming path

`_get_serialized_stream` is a Python generator function: calling it builds a
generator object without executing any of its body; each `next()` runs the body
up to the next `yield`. The model below makes that explicit: `GenState` is the
suspension state of the generator, `streamNext` is one `next()` call, and each
step reports the observable collaborator events it performs (`Ev`). -/

/-- Observable collaborator events performed by the streaming generator:
opening the default cursor (`queryset.iterator()`), opening the chunked cursor
(`queryset.iterator(chunk_size=n)`), one call to `self.get_serializer_context()`,
and one per-record serializer application. -/
inductive Ev where
  | openDefault
  | openChunked (chunkSize : Nat)
  | buildCtx
  | applyTransform
deriving DecidableEq

/-- Suspension state of the `_get_serialized_stream` generator: freshly created
(no body code has run; it still holds the queryset), suspended inside the
`for obj in iterator` loop with `rest` still to yield, or closed (exhausted or
after an exception escaped). -/
inductive GenState (ρ : Type) where
  | created (queryset : List ρ)
  | running (rest : List ρ)
  | closed
deriving DecidableEq

/-- Outcome of one `next()` call on a generator: a yielded row, `StopIteration`,
or a propagated exception. -/
inductive PullOut (Row : Type) where
  | yields (r : Row)
  | stopIteration
  | raises (e : PyErr)
deriving DecidableEq

/-- The loop body reached with `items` left to yield: on a nonempty list, call
`self.get_serializer_context()`, apply the serializer to the head and yield it;
on an empty list the `for` loop ends and the generator stops. `evs` are events
already performed earlier in this same `next()` call. -/
def streamYield (serialize : Ctx → ρ → Row) (ctx : Ctx) (evs : List Ev) :
    List ρ → PullOut Row × GenState ρ × List Ev
  | [] => (.stopIteration, .closed, evs)
  | x :: xs =>
    (.yields (serialize ctx x), .running xs,
      evs ++ [Ev.buildCtx, Ev.applyTransform])

/-- One `next()` call on the `_get_serialized_stream` generator. From `created`,
the body runs from the top: the `try/except` cursor resolution happens now
(emitting the cursor events, raising unrecovered exceptions), then the loop
yields the first record. From `running`, the loop continues. From `closed`,
`StopIteration`. `ctx` is the value `self.get_serializer_context()` returns
(each call returns a context of this same content; calls are counted as
`Ev.buildCtx` events). -/
def streamNext (st : Store ρ) (chunk : Nat) (serialize : Ctx → ρ → Row)
    (ctx : Ctx) : GenState ρ → PullOut Row × GenState ρ × List Ev
  | .created qs =>
    match st.cursorDefault qs with
    | .ok items => streamYield serialize ctx [Ev.openDefault] items
    | .error e =>
      if isNeedsChunk e then
        match st.cursorChunked qs chunk with
        | .ok items =>
            streamYield serialize ctx [Ev.openDefault, Ev.openChunked chunk] items
        | .error e2 =>
            (.raises e2, .closed, [Ev.openDefault, Ev.openChunked chunk])
      else (.raises e, .closed, [Ev.openDefault])
  | .running rest => streamYield serialize ctx [] rest
  | .closed => (.stopIteration, .closed, [])

/-- Run `pulls` consecutive `next()` calls on the generator, collecting the
yielded rows and every event performed, stopping early at `StopIteration` or
at a raised exception. This is what a consumer that pulls `pulls` times
observes. -/
def streamRun (st : Store ρ) (chunk : Nat) (serialize : Ctx → ρ → Row)
    (ctx : Ctx) : Nat → GenState ρ → List Row × List Ev
  | 0, _ => ([], [])
  | pulls + 1, g =>
    match streamNext st chunk serialize ctx g with
    | (.yields r, g2, evs) =>
      let rest := streamRun st chunk serialize ctx pulls g2
      (r :: rest.1, evs ++ rest.2)
    | (.stopIteration, _, evs) => ([], evs)
    | (.raises _, _, evs) => ([], evs)

/-- Number of occurrences of event `e` in a trace. -/
def countEv (evs : List Ev) (e : Ev) : Nat :=
  (evs.filter (fun x => x = e)).length

/-- What `get_csv_data` hands back, operationally: a materialized list
(non-streaming), the `_get_serialized_stream` generator object in its initial
suspension state (streaming with a serializer), or the lazy raw
`(item for item in queryset.values())` generator, carried by its row content
(it touches no cursor API). -/
inductive CsvDataOp (ρ Row : Type) where
  | list (rows : List Row)
  | gen (g : GenState ρ)
  | rawGen (rows : List Row)
deriving DecidableEq

/-- Whether the object `get_csv_data` returned is lazy (a generator) rather
than a materialized list. -/
def CsvDataOp.lazyKind : CsvDataOp ρ Row → Bool
  | .list _ => false
  | .gen _ => true
  | .rawGen _ => true

/-- Operational rendering of `CSVListView.get_csv_data`: the same branch
structure as `getCsvData`, but recording what kind of object is returned at
call time. Calling `self._get_serialized_stream(queryset)` only CREATES the
generator (Python runs none of its body), so the streaming-with-serializer
branch returns `.gen (.created qs)`; note this function does not consult the
store at all — no store interaction can happen at call time. -/
def getCsvDataOp (cfg : CsvConfig ρ Row) (queryset : List ρ) : CsvDataOp ρ Row :=
  if cfg.csvStreaming then
    let qs := applyLimit cfg.rowsCount queryset
    match cfg.serializer with
    | some _ => .gen (.created qs)
    | none => .rawGen (qs.map cfg.values)
  else
    let qs := applyLimit cfg.rowsCount queryset
    let qs2 := (cfg.paginate qs).getD qs
    match cfg.serializer with
    | some cap => .list (cap.many qs2)
    | none => .list (qs2.map cfg.values)

/-! ### Model of `CSVGenericView.apply_rows_limit`

`apply_rows_limit` dispatches on the Python runtime shape of `data`:
`isinstance(data, list)`, then `hasattr(data, "__iter__") and not
isinstance(data, (str, bytes, dict))`, else returns `data` unchanged.
`PyData` enumerates the shapes that matter for that chain. -/

/-- A Python value as seen by `apply_rows_limit`: a list of items, a generic
lazy iterable (e.g. a generator) over items, the generator
`(item for i, item in enumerate(up) if i < limit)` that `apply_rows_limit`
itself builds, a `str`, a `bytes`, a `dict`, or a non-iterable object. -/
inductive PyData (α : Type) where
  | pyList (xs : List α)
  | pyIterable (xs : List α)
  | genexpLimited (upstream : List α) (limit : Nat)
  | pyStr (s : String)
  | pyByteString (bs : List Nat)
  | pyDict (kvs : List (String × α))
  | pyObj
deriving DecidableEq

/-- Python's `hasattr(data, "__iter__")` on the shapes of `PyData`: lists,
generators, `str`, `bytes` and `dict` are all iterable; only a plain object is
not. -/
def hasIter : PyData α → Bool
  | .pyObj => false
  | _ => true

/-- Python's `isinstance(data, (str, bytes, dict))`. -/
def isStrBytesDict : PyData α → Bool
  | .pyStr _ => true
  | .pyByteString _ => true
  | .pyDict _ => true
  | _ => false

/-- Elements an iterable yields when fully iterated; for the limiting generator
this is the enumerate-filter it computes. Only meaningful on `pyList`,
`pyIterable` and `genexpLimited` (the shapes the genexp branch can receive). -/
def iterElems : PyData α → List α
  | .pyList xs => xs
  | .pyIterable xs => xs
  | .genexpLimited up m => (up.enum.filter (fun p => p.1 < m)).map Prod.snd
  | _ => []

/-- `CSVGenericView.apply_rows_limit`: if `get_csv_rows_count()` is not `None`,
slice a list (`data[:rows_count]`); for any other iterable that is not
`str`/`bytes`/`dict`, build the generator
`(item for i, item in enumerate(data) if i < rows_count)`; otherwise (including
`str`, `bytes`, `dict`, which are iterable but excluded by the isinstance
check) return `data` unchanged. -/
def applyRowsLimit (rowsCount : Option Nat) (data : PyData α) : PyData α :=
  match rowsCount with
  | none => data
  | some n =>
    match data with
    | .pyList xs => .pyList (xs.take n)
    | .pyIterable xs => .genexpLimited xs n
    | .genexpLimited up m => .genexpLimited (iterElems (.genexpLimited up m)) n
    | d => d

/-- One `next()` call on the generator
`(item for i, item in enumerate(data) if i < limit)`, given the remaining
upstream items and the current `enumerate` index: it keeps pulling upstream
items (the filter skips, it does not stop) until one passes `i < limit` and is
yielded, or upstream is exhausted and `StopIteration` is raised. Returns the
yielded item with the new state (if any) and the number of upstream items this
call consumed. -/
def genexpNext (limit : Nat) : List α → Nat → Option (α × List α × Nat) × Nat
  | [], _ => (none, 0)
  | x :: xs, i =>
    if i < limit then (some (x, xs, i + 1), 1)
    else
      let r := genexpNext limit xs (i + 1)
      (r.1, r.2 + 1)

/-- A consumer performing `pulls` successive `next()` calls on the limiting
generator, stopping at `StopIteration`: the items it receives and the total
number of upstream items consumed. -/
def genexpRun (limit : Nat) : Nat → List α → Nat → List α × Nat
  | 0, _, _ => ([], 0)
  | pulls + 1, xs, i =>
    match genexpNext limit xs i with
    | (none, c) => ([], c)
    | (some (a, xs2, i2), c) =>
      let rest := genexpRun limit pulls xs2 i2
      (a :: rest.1, c + rest.2)

/-! ### Sample collaborators for concrete evaluations -/

/-- A healthy store: both cursor strategies yield the queryset's records. -/
def sampleStore : Store Nat :=
  ⟨fun qs => .ok qs, fun qs _ => .ok qs⟩

/-- The exception Django raises for `queryset.iterator()` after
`prefetch_related`: a `ValueError` whose message contains the recognized
fetch-granularity text. -/
def prefetchErr : PyErr :=
  ⟨true, "chunk_size must be provided when using QuerySet.iterator() after prefetch_related()"⟩

/-- A store whose default cursor raises the recognized precondition but whose
chunked cursor works. -/
def prefetchStore : Store Nat :=
  ⟨fun _ => .error prefetchErr, fun qs _ => .ok qs⟩

/-- An unrelated store failure (not a `ValueError`). -/
def dbGoneErr : PyErr := ⟨false, "connection already closed"⟩

/-- A store whose default cursor fails with an unrelated error. -/
def brokenStore : Store Nat :=
  ⟨fun _ => .error dbGoneErr, fun qs _ => .ok qs⟩

/-- A pointwise serializer capability on `Nat` records (DRF default
`ListSerializer` behaviour). -/
def sampleSer : SerializerCap Nat Nat :=
  ⟨fun r => r + 1, fun xs => xs.map (fun r => r + 1)⟩

/-! ### Claims -/

/-- Claim C1: for every query `Q` and row limit `L ≥ 0`, the non-streaming
export with rowLimit `L` (`get_csv_data` with `csv_streaming` false and
`get_csv_rows_count()` returning `L`) yields exactly `min (|Q|, L)` rows,
identical in content and order to the first `L` rows of the non-streaming
export of `Q` with rowLimit `None`. Stated in the default caller context (no
paginator; DRF's default pointwise batch serializer). -/
theorem c1_rowLimit_truncation {ρ Row : Type} (qs : List ρ) (L : Nat)
    (ser : Option (SerializerCap ρ Row)) (v : ρ → Row) (st : Store ρ)
    (cs : Option Nat) (hpoint : PointwiseSer ser) :
    ∃ rows allRows,
      getCsvData ⟨false, some L, ser, v, fun _ => none, cs⟩ st qs = .ok rows ∧
      getCsvData ⟨false, none, ser, v, fun _ => none, cs⟩ st qs = .ok allRows ∧
      rows.length = min qs.length L ∧
      rows = allRows.take L := by
  cases ser with
  | none =>
    refine ⟨(qs.take L).map v, qs.map v, ?_, ?_, ?_, ?_⟩
    · simp [getCsvData, applyLimit]
    · simp [getCsvData, applyLimit]
    · simp [List.length_take, Nat.min_comm]
    · simp [List.map_take]
  | some cap =>
    refine ⟨(qs.take L).map cap.one, qs.map cap.one, ?_, ?_, ?_, ?_⟩
    · simp [getCsvData, applyLimit, hpoint cap rfl]
    · simp [getCsvData, applyLimit, hpoint cap rfl]
    · simp [List.length_take, Nat.min_comm]
    · simp [List.map_take]

/-- Witness for C1 at a concrete input: three records, limit 2, the pointwise
sample serializer and a healthy store. -/
theorem c1_rowLimit_truncation_witness :
    ∃ rows allRows,
      getCsvData ⟨false, some 2, some sampleSer, fun r => r * 10, fun _ => none,
        none⟩ sampleStore [5, 6, 7] = .ok rows ∧
      getCsvData ⟨false, none, some sampleSer, fun r => r * 10, fun _ => none,
        none⟩ sampleStore [5, 6, 7] = .ok allRows ∧
      rows.length = min ([5, 6, 7] : List Nat).length 2 ∧
      rows = allRows.take 2 :=
  c1_rowLimit_truncation [5, 6, 7] 2 (some sampleSer) (fun r => r * 10)
    sampleStore none (by intro cap h xs; cases h; rfl)

/-- Claim C2: for every query, row limit, and transform configuration, the
streaming export (`csv_streaming` true) and the non-streaming export produce
row-for-row identical output — same rows, same order, same content — differing
only in whether the result is a lazy generator or a materialized list. Stated
in the default caller context (no paginator, pointwise batch serializer) and
under the store contract that the resolved iterator yields the limited query's
records in order. -/
theorem c2_streaming_nonstreaming_agree {ρ Row : Type} (qs : List ρ)
    (L : Option Nat) (ser : Option (SerializerCap ρ Row)) (v : ρ → Row)
    (st : Store ρ) (cs : Option Nat) (hpoint : PointwiseSer ser)
    (hiter : resolveIterator st (effectiveChunkSize cs) (applyLimit L qs) =
      .ok (applyLimit L qs)) :
    ∃ rows,
      getCsvData ⟨true, L, ser, v, fun _ => none, cs⟩ st qs = .ok rows ∧
      getCsvData ⟨false, L, ser, v, fun _ => none, cs⟩ st qs = .ok rows ∧
      (getCsvDataOp ⟨true, L, ser, v, fun _ => none, cs⟩ qs).lazyKind = true ∧
      getCsvDataOp ⟨false, L, ser, v, fun _ => none, cs⟩ qs = .list rows := by
  cases ser with
  | none =>
    exact ⟨(applyLimit L qs).map v, by simp [getCsvData],
      by simp [getCsvData], by simp [getCsvDataOp, CsvDataOp.lazyKind],
      by simp [getCsvDataOp]⟩
  | some cap =>
    refine ⟨(applyLimit L qs).map cap.one, ?_, ?_, ?_, ?_⟩
    · simp [getCsvData, getSerializedStream, hiter, Except.map]
    · simp [getCsvData, hpoint cap rfl]
    · simp [getCsvDataOp, CsvDataOp.lazyKind]
    · simp [getCsvDataOp, hpoint cap rfl]

/-- Witness for C2 at a concrete input: limit 1 over two records, sample
serializer, healthy store (default cursor succeeds). -/
theorem c2_streaming_nonstreaming_agree_witness :
    ∃ rows,
      getCsvData ⟨true, some 1, some sampleSer, fun r => r * 10, fun _ => none,
        some 50⟩ sampleStore [3, 4] = .ok rows ∧
      getCsvData ⟨false, some 1, some sampleSer, fun r => r * 10, fun _ => none,
        some 50⟩ sampleStore [3, 4] = .ok rows ∧
      (getCsvDataOp ⟨true, some 1, some sampleSer, fun r => r * 10,
        fun _ => none, some 50⟩ [3, 4]).lazyKind = true ∧
      getCsvDataOp ⟨false, some 1, some sampleSer, fun r => r * 10,
        fun _ => none, some 50⟩ [3, 4] = .list rows :=
  c2_streaming_nonstreaming_agree [3, 4] (some 1) (some sampleSer)
    (fun r => r * 10) sampleStore (some 50)
    (by intro cap h xs; cases h; rfl) (by rfl)

/-- Claim C3: when `queryset.iterator()` (no chunk size) raises the recognized
"needs fetch granularity" `ValueError`, `_get_serialized_stream` succeeds by
retrying exactly once with the chunk-size-bounded cursor (the resolved iterator
is exactly the single chunked-cursor call, whose default chunk size is 1000),
does not propagate the error, and yields the same records in the same order as
fully materializing the query (`fetchAll`), serialized per record. -/
theorem c3_needs_chunk_fallback {ρ Row : Type} (st : Store ρ) (qs : List ρ)
    (f : ρ → Row) (e : PyErr) (cs : Option Nat)
    (hdef : st.cursorDefault qs = .error e)
    (hrec : isNeedsChunk e = true)
    (hchunk : st.cursorChunked qs (effectiveChunkSize cs) = .ok (fetchAll qs)) :
    getSerializedStream st (effectiveChunkSize cs) f qs =
      .ok ((fetchAll qs).map f) ∧
    resolveIterator st (effectiveChunkSize cs) qs =
      st.cursorChunked qs (effectiveChunkSize cs) ∧
    effectiveChunkSize none = 1000 := by
  refine ⟨?_, ?_, rfl⟩
  · simp [getSerializedStream, resolveIterator, hdef, hrec, hchunk, Except.map]
  · simp [resolveIterator, hdef, hrec]

/-- Witness for C3: a store raising Django's prefetch-related `ValueError` on
the default cursor, with a working chunked cursor, over three records and no
configured chunk size (so the default 1000 is used). -/
theorem c3_needs_chunk_fallback_witness :
    getSerializedStream prefetchStore (effectiveChunkSize none)
      (fun r => r + 1) [7, 8, 9] = .ok ((fetchAll [7, 8, 9]).map (fun r => r + 1)) ∧
    resolveIterator prefetchStore (effectiveChunkSize none) [7, 8, 9] =
      prefetchStore.cursorChunked [7, 8, 9] (effectiveChunkSize none) ∧
    effectiveChunkSize none = 1000 :=
  c3_needs_chunk_fallback prefetchStore [7, 8, 9] (fun r => r + 1) prefetchErr
    none rfl (by decide) rfl

/-- Claim C4: when the default cursor attempt fails with any error other than
the recognized "needs fetch granularity" precondition, `_get_serialized_stream`
propagates that error unchanged and attempts no chunk-size fallback: the
outcome is the same error for every possible chunked-cursor behaviour `g`. -/
theorem c4_unrelated_error_propagates {ρ Row : Type} (st : Store ρ)
    (qs : List ρ) (f : ρ → Row) (chunk : Nat) (e : PyErr)
    (hdef : st.cursorDefault qs = .error e)
    (hrec : isNeedsChunk e = false) :
    getSerializedStream st chunk f qs = .error e ∧
    ∀ g : List ρ → Nat → Except PyErr (List ρ),
      getSerializedStream ⟨st.cursorDefault, g⟩ chunk f qs = .error e := by
  constructor
  · simp [getSerializedStream, resolveIterator, hdef, hrec, Except.map]
  · intro g
    simp [getSerializedStream, resolveIterator, hdef, hrec, Except.map]

/-- Witness for C4: a store whose default cursor raises a non-`ValueError`
connection failure; the stream propagates it for every fallback behaviour. -/
theorem c4_unrelated_error_propagates_witness :
    getSerializedStream brokenStore 1000 (fun r => r + 1) [1, 2] =
      .error dbGoneErr ∧
    ∀ g : List Nat → Nat → Except PyErr (List Nat),
      getSerializedStream ⟨brokenStore.cursorDefault, g⟩ 1000
        (fun r => r + 1) [1, 2] = .error dbGoneErr :=
  c4_unrelated_error_propagates brokenStore [1, 2] (fun r => r + 1) 1000
    dbGoneErr rfl (by decide)

/-- Claim C5, evaluated at the failing input: `apply_rows_limit` on a lazy
5-item sequence with limit 2 returns the limiting generator, and a consumer
exhausting it (two yields, then the pull that discovers the end) consumes all
5 upstream items — the generator's filter skips past the limit instead of
stopping — exceeding the claimed bound of `L + 1 = 3`. The yielded items
themselves are the correct first 2, in order. -/
theorem c5_overconsumption_at_failing_input :
    applyRowsLimit (some 2) (PyData.pyIterable [10, 20, 30, 40, 50]) =
      PyData.genexpLimited [10, 20, 30, 40, 50] 2 ∧
    genexpRun 2 3 [10, 20, 30, 40, 50] 0 = ([10, 20], 5) ∧
    ¬ (5 : Nat) ≤ 2 + 1 := by decide

/-- Counterexample to claim C6: with streaming requested and no serializer
configured (no per-record transform context available), `get_csv_data` raises
nothing at all — it returns the raw lazy `values()` stream successfully — so
no `ConfigurationError` is raised, synchronously or otherwise. -/
theorem c6_counterexample_no_error_raised :
    getCsvData ⟨true, some 5, none, fun r => r * 2, fun _ => none, none⟩
      sampleStore [1, 2] = .ok [2, 4] ∧
    (∀ e : PyErr,
      getCsvData ⟨true, some 5, none, fun r => r * 2, fun _ => none, none⟩
        sampleStore [1, 2] ≠ .error e) ∧
    getCsvDataOp ⟨true, some 5, none, fun r => r * 2, fun _ => none, none⟩
      [1, 2] = .rawGen [2, 4] := by
  refine ⟨rfl, ?_, rfl⟩
  intro e h
  exact Except.noConfusion ((rfl :
    getCsvData ⟨true, some 5, none, fun r => r * 2, fun _ => none, none⟩
      sampleStore [1, 2] = .ok [2, 4]).symm.trans h)

/-- Claim C6 as amended: when streaming is requested but no serializer
capability is configured, `get_csv_data` raises no error whatsoever (the code
has no `ConfigurationError`): it synchronously selects the raw `values()` lazy
stream, which yields the limited rows and never defers an error into the
sequence. -/
theorem c6_amended_silent_fallback {ρ Row : Type} (qs : List ρ)
    (L : Option Nat) (v : ρ → Row) (st : Store ρ)
    (pag : List ρ → Option (List ρ)) (cs : Option Nat) :
    getCsvData ⟨true, L, none, v, pag, cs⟩ st qs =
      .ok ((applyLimit L qs).map v) ∧
    getCsvDataOp ⟨true, L, none, v, pag, cs⟩ qs =
      .rawGen ((applyLimit L qs).map v) := by
  exact ⟨by simp [getCsvData], by simp [getCsvDataOp]⟩

/-- Event counting distributes over trace concatenation. -/
theorem countEv_append (a b : List Ev) (e : Ev) :
    countEv (a ++ b) e = countEv a e + countEv b e := by
  simp [countEv, List.filter_append]

/-- Behaviour of the generator once suspended in its loop: `n` pulls yield the
first `n` serialized records, with exactly one context build and one transform
application per yielded row and no cursor events. -/
theorem streamRun_running {ρ Row Ctx : Type} (st : Store ρ) (chunk : Nat)
    (f : Ctx → ρ → Row) (ctx : Ctx) (n : Nat) (items : List ρ) :
    (streamRun st chunk f ctx n (.running items)).1 =
      (items.map (f ctx)).take n ∧
    countEv (streamRun st chunk f ctx n (.running items)).2 Ev.buildCtx =
      min n items.length ∧
    countEv (streamRun st chunk f ctx n (.running items)).2 Ev.applyTransform =
      min n items.length ∧
    (∀ c : Nat, countEv (streamRun st chunk f ctx n (.running items)).2
      (Ev.openChunked c) = 0) ∧
    countEv (streamRun st chunk f ctx n (.running items)).2 Ev.openDefault =
      0 := by
  induction n generalizing items with
  | zero => simp [streamRun, countEv]
  | succ n ih =>
    cases items with
    | nil => simp [streamRun, streamNext, streamYield, countEv]
    | cons x xs =>
      obtain ⟨h1, h2, h3, h4, h5⟩ := ih xs
      have hstep : streamRun st chunk f ctx (n + 1) (.running (x :: xs)) =
          (f ctx x :: (streamRun st chunk f ctx n (.running xs)).1,
            [Ev.buildCtx, Ev.applyTransform] ++
              (streamRun st chunk f ctx n (.running xs)).2) := by
        simp [streamRun, streamNext, streamYield]
      rw [hstep]
      refine ⟨by simp [h1], ?_, ?_, ?_, ?_⟩
      · rw [countEv_append, h2]
        simp [countEv]
        omega
      · rw [countEv_append, h3]
        simp [countEv]
        omega
      · intro c
        rw [countEv_append, h4 c]
        simp [countEv]
      · rw [countEv_append, h5]
        simp [countEv]

/-- Counterexample to claim C7 as stated: over two records (healthy store),
fully consuming the streaming generator performs TWO `get_serializer_context()`
calls — one per record, inside the loop — not one shared context build for the
whole iteration. -/
theorem c7_counterexample_context_rebuilt :
    countEv (streamRun sampleStore 1000 (fun (c r : Nat) => c + r) 100 3
      (GenState.created [1, 2])).2 Ev.buildCtx = 2 ∧
    ¬ countEv (streamRun sampleStore 1000 (fun (c r : Nat) => c + r) 100 3
      (GenState.created [1, 2])).2 Ev.buildCtx = 1 := by decide

/-- Claim C7 as amended: in streaming mode with a transform present, the
transform is applied per record and lazily — after `n` pulls exactly
`min n |items|` rows have been yielded and exactly that many transform
invocations have happened, so each transform runs only when its row is pulled —
but the serializer context is rebuilt for each record (one
`get_serializer_context()` call per yielded row), not built once and reused. -/
theorem c7_amended_per_record_lazy {ρ Row Ctx : Type} (st : Store ρ)
    (chunk : Nat) (f : Ctx → ρ → Row) (ctx : Ctx) (items : List ρ) (n : Nat)
    (hdef : st.cursorDefault items = .ok items) :
    (streamRun st chunk f ctx n (.created items)).1 =
      (items.map (f ctx)).take n ∧
    countEv (streamRun st chunk f ctx n (.created items)).2 Ev.applyTransform =
      min n items.length ∧
    countEv (streamRun st chunk f ctx n (.created items)).2 Ev.buildCtx =
      min n items.length := by
  cases n with
  | zero => simp [streamRun, countEv]
  | succ n =>
    cases items with
    | nil => simp [streamRun, streamNext, streamYield, hdef, countEv]
    | cons x xs =>
      obtain ⟨h1, h2, h3, h4, h5⟩ := streamRun_running st chunk f ctx n xs
      have hstep : streamRun st chunk f ctx (n + 1) (.created (x :: xs)) =
          (f ctx x :: (streamRun st chunk f ctx n (.running xs)).1,
            [Ev.openDefault, Ev.buildCtx, Ev.applyTransform] ++
              (streamRun st chunk f ctx n (.running xs)).2) := by
        simp [streamRun, streamNext, streamYield, hdef]
      rw [hstep]
      refine ⟨by simp [h1], ?_, ?_⟩
      · rw [countEv_append, h3]
        simp [countEv]
        omega
      · rw [countEv_append, h2]
        simp [countEv]
        omega

/-- Witness for the amended C7: three pulls over two records with a healthy
store: both rows are yielded, with two transform applications and two context
builds. -/
theorem c7_amended_per_record_lazy_witness :
    (streamRun sampleStore 1000 (fun (c r : Nat) => c + r) 100 3
      (GenState.created [4, 5])).1 = (([4, 5].map (fun r => 100 + r)).take 3) ∧
    countEv (streamRun sampleStore 1000 (fun (c r : Nat) => c + r) 100 3
      (GenState.created [4, 5])).2 Ev.applyTransform =
      min 3 ([4, 5] : List Nat).length ∧
    countEv (streamRun sampleStore 1000 (fun (c r : Nat) => c + r) 100 3
      (GenState.created [4, 5])).2 Ev.buildCtx =
      min 3 ([4, 5] : List Nat).length :=
  c7_amended_per_record_lazy sampleStore 1000 (fun (c r : Nat) => c + r) 100
    [4, 5] 3 rfl

/-- Claim C8: in non-streaming mode the row limit and external pagination
compose in a fixed order — the limit restricts the query first
(`queryset.take L`), the paginator is then applied to the already
limit-restricted query, and the batch serializer (`many`) is applied once to
the whole resulting materialized sequence. Holds for every paginator `pag` and
every batch serializer behaviour `cap.many` (no pointwise assumption), showing
the transform is one batch call on the final sequence, not per record. -/
theorem c8_limit_then_page_then_batch {ρ Row : Type} (qs : List ρ) (L : Nat)
    (cap : SerializerCap ρ Row) (v : ρ → Row)
    (pag : List ρ → Option (List ρ)) (st : Store ρ) (cs : Option Nat) :
    getCsvData ⟨false, some L, some cap, v, pag, cs⟩ st qs =
      .ok (cap.many ((pag (qs.take L)).getD (qs.take L))) := by
  simp [getCsvData, applyLimit]

/-- Claim C9: `apply_rows_limit` returns `str`, `bytes` and `dict` inputs
unchanged for every row limit, even though all three are iterable
(`hasattr(data, "__iter__")` holds for them); only lists (sliced) and other
non-`str`/`bytes`/`dict` iterables (wrapped in the limiting generator) are ever
truncated. -/
theorem c9_str_bytes_dict_unchanged {α : Type} (s : String) (bs : List Nat)
    (kvs : List (String × α)) (L : Option Nat) (n : Nat) (xs ys : List α) :
    applyRowsLimit L (PyData.pyStr s : PyData α) = PyData.pyStr s ∧
    applyRowsLimit L (PyData.pyByteString bs : PyData α) =
      PyData.pyByteString bs ∧
    applyRowsLimit L (PyData.pyDict kvs) = PyData.pyDict kvs ∧
    hasIter (PyData.pyStr s : PyData α) = true ∧
    hasIter (PyData.pyByteString bs : PyData α) = true ∧
    hasIter (PyData.pyDict kvs) = true ∧
    applyRowsLimit (some n) (PyData.pyList xs) = PyData.pyList (xs.take n) ∧
    applyRowsLimit (some n) (PyData.pyIterable ys) =
      PyData.genexpLimited ys n := by
  cases L <;> simp [applyRowsLimit, hasIter]

/-- Claim C10: in streaming mode with a serializer configured, no interaction
with the backing store happens at export call time: `get_csv_data` returns the
freshly created generator object (its operational rendering takes no store
argument at all — the store cannot be consulted), the cursor-open attempt is
the first thing any store sees and it happens on the first pull (for every
store, the first pull's trace starts with the default-cursor-open event), and a
store failure surfaces as a raised error on that first pull, not at call
time. -/
theorem c10_store_touched_on_first_pull {ρ Row Ctx : Type} (qs : List ρ)
    (L : Option Nat) (cap : SerializerCap ρ Row) (v : ρ → Row)
    (pag : List ρ → Option (List ρ)) (cs : Option Nat) (st : Store ρ)
    (chunk : Nat) (f : Ctx → ρ → Row) (ctx : Ctx) (e : PyErr)
    (hdef : st.cursorDefault (applyLimit L qs) = .error e)
    (hrec : isNeedsChunk e = false) :
    getCsvDataOp ⟨true, L, some cap, v, pag, cs⟩ qs =
      .gen (.created (applyLimit L qs)) ∧
    (∀ st2 : Store ρ, ∃ evs,
      (streamNext st2 chunk f ctx (GenState.created (applyLimit L qs))).2.2 =
        Ev.openDefault :: evs) ∧
    streamNext st chunk f ctx (GenState.created (applyLimit L qs)) =
      (.raises e, .closed, [Ev.openDefault]) := by
  refine ⟨by simp [getCsvDataOp], ?_, ?_⟩
  · intro st2
    cases h2 : st2.cursorDefault (applyLimit L qs) with
    | ok items =>
      cases items with
      | nil => exact ⟨[], by simp [streamNext, streamYield, h2]⟩
      | cons x xs =>
        exact ⟨[Ev.buildCtx, Ev.applyTransform],
          by simp [streamNext, streamYield, h2]⟩
    | error e2 =>
      by_cases hn : isNeedsChunk e2
      · cases h3 : st2.cursorChunked (applyLimit L qs) chunk with
        | ok items =>
          cases items with
          | nil =>
            exact ⟨[Ev.openChunked chunk],
              by simp [streamNext, streamYield, h2, h3, hn]⟩
          | cons x xs =>
            exact ⟨[Ev.openChunked chunk, Ev.buildCtx, Ev.applyTransform],
              by simp [streamNext, streamYield, h2, h3, hn]⟩
        | error e3 =>
          exact ⟨[Ev.openChunked chunk], by simp [streamNext, h2, h3, hn]⟩
      · exact ⟨[], by simp [streamNext, h2, hn]⟩
  · simp [streamNext, hdef, hrec]

/-- Witness for C10: a concrete failing store (non-`ValueError` connection
error) over a limited two-record query: call time returns the unevaluated
generator; the first pull opens the cursor and raises the store error. -/
theorem c10_store_touched_on_first_pull_witness :
    getCsvDataOp ⟨true, some 1, some sampleSer, fun r => r, fun _ => none,
      none⟩ [4, 5] = .gen (.created (applyLimit (some 1) [4, 5])) ∧
    (∀ st2 : Store Nat, ∃ evs,
      (streamNext st2 1000 (fun (c r : Nat) => c + r) 0
        (GenState.created (applyLimit (some 1) [4, 5]))).2.2 =
          Ev.openDefault :: evs) ∧
    streamNext brokenStore 1000 (fun (c r : Nat) => c + r) 0
      (GenState.created (applyLimit (some 1) [4, 5])) =
        (.raises dbGoneErr, .closed, [Ev.openDefault]) :=
  c10_store_touched_on_first_pull [4, 5] (some 1) sampleSer (fun r => r)
    (fun _ => none) none brokenStore 1000 (fun (c r : Nat) => c + r) 0
    dbGoneErr rfl (by decide)

end DrfCsv
